import Mathlib

/-!
Verification of the Open Grid synthetic energy-data generator
(`mock_data.py`, class `EnergyDataGenerator`).

Shallow embedding conventions:

* Python floats are modelled as rationals (`ℚ`); float arithmetic is exact
  rational arithmetic.  The one transcendental used by the source,
  `math.sin((month - 2) * math.pi / 6)`, is abstracted as an arbitrary
  rational-valued function `sinQ : ℕ → ℚ` of the month; every theorem is
  universally quantified over it.
* The process-wide random sources (`random`, `np.random`, `faker`) are
  modelled as one explicit stream `Draws := ℕ → ℚ` of draws, consumed in
  the exact order the source draws them.  A draw standing for
  `random.random()` or the unit input of `np.random.uniform` is a value
  in `[0, 1)`; a draw standing for a standard normal sample is an
  arbitrary rational (`np.random.normal(0, s)` is modelled as `s * z`
  with `z` the stream draw).
* `time.time()` is modelled as an explicit integer argument `now`.
* Naive `datetime` values are modelled as unix timestamps (whole seconds,
  `ℤ`) decoded with a fixed-offset local clock (offset 0); `datetime`
  field access (`.hour`, `.weekday()`, `.month`) is the civil-calendar
  decoding of that timestamp.
* `location` strings of the form "lat:%.4f,lon:%.4f" are modelled as the
  pair of their two rounded coordinates.
-/

/-- A stream of random draws: the process-wide RNG state. -/
def Draws : Type := ℕ → ℚ

/-- Advance the stream past the first `n` draws. -/
def Draws.drop (s : Draws) (n : ℕ) : Draws := fun i => s (n + i)

/-- A stream whose `random.random()`-style draws are all in `[0, 1)`:
the contract of the real RNG for unit draws. -/
def ValidStream (s : Draws) : Prop := ∀ i, 0 ≤ s i ∧ s i < 1

/-- Floor of a rational, computed on the normalised representation
(equal to `Int.floor`, see `qfloor_eq_floor`); written this way so that
closed terms evaluate. -/
def qfloor (q : ℚ) : ℤ := q.num / q.den

theorem qfloor_eq_floor (q : ℚ) : qfloor q = ⌊q⌋ := by
  rw [Rat.floor_def]; rfl

/-- Python `round(x, 3)`: rounding to 3 decimal places.  Python uses
round-half-even on floats; ties never occur in the facts proved here, so
round-half-up is used. -/
def round3 (q : ℚ) : ℚ := (qfloor (q * 1000 + 1/2) : ℚ) / 1000

/-- Python `%.4f` formatting of a coordinate: rounding to 4 decimal
places (the formatted string is modelled by its numeric value). -/
def round4 (q : ℚ) : ℚ := (qfloor (q * 10000 + 1/2) : ℚ) / 10000

/-- `np.random.uniform(lo, hi)` applied to a unit draw `u`. -/
def uniform (lo hi u : ℚ) : ℚ := lo + (hi - lo) * u

/-- `random.randint(0, n)` (both ends inclusive) applied to a unit draw:
`⌊u * (n + 1)⌋`, capped into range. -/
def randint (u : ℚ) (n : ℕ) : ℕ := min n (Int.toNat (qfloor (u * (n + 1))))

/-- `random.choice` on a list of length `n`: the chosen index
`⌊u * n⌋`, capped into range. -/
def choiceIdx (u : ℚ) (n : ℕ) : ℕ := min (n - 1) (Int.toNat (qfloor (u * n)))

/-- `np.random.choice(keys, p=weights)`: weighted choice by cumulative
weights over the insertion-ordered pairs.  (NumPy raises when the
weights do not sum to 1; that case falls off the end and returns "".) -/
def weightedChoice : List (String × ℚ) → ℚ → String
  | [], _ => ""
  | (k, w) :: rest, u => if u < w then k else weightedChoice rest (u - w)

/-- Zero-padded decimal rendering, Python `"%0*d"`. -/
def pad0 (w : ℕ) (n : ℕ) : String :=
  let s := toString n
  (List.replicate (w - s.length) '0').asString ++ s

/-- ASCII lowercase of one character, as Python `str.lower` acts on the
identifiers appearing here. -/
def charLower (c : Char) : Char :=
  if 'A' ≤ c ∧ c ≤ 'Z' then Char.ofNat (c.toNat + 32) else c

/-- Python `needle in hay` on strings: contiguous-substring test
(empty needle matches). -/
def strContains (needle hay : List Char) : Bool :=
  match hay with
  | [] => needle.isEmpty
  | _ :: t => needle.isPrefixOf hay || strContains needle t

/-- Case-insensitive containment `candidate.lower() in col.lower()`. -/
def containsCI (candidate col : String) : Bool :=
  strContains (candidate.data.map charLower) (col.data.map charLower)

/-! ## Civil time

`datetime` values are unix timestamps decoded with a fixed offset of 0;
`86400 ∣ t` is "midnight". -/

/-- `datetime.hour` of a unix timestamp. -/
def hourOfTs (t : ℤ) : ℕ := ((t % 86400) / 3600).toNat

/-- `datetime.weekday()` (0 = Monday) of a unix timestamp: day 0
(1970-01-01) was a Thursday. -/
def weekdayOfTs (t : ℤ) : ℕ := ((t.fdiv 86400 + 3) % 7).toNat

/-- Civil month (1..12) of a day count since 1970-01-01
(Howard Hinnant's civil-from-days algorithm, floor division). -/
def monthOfDays (z : ℤ) : ℕ :=
  let z' := z + 719468
  let era := z'.fdiv 146097
  let doe := z' - era * 146097
  let yoe := (doe - doe / 1460 + doe / 36524 - doe / 146096) / 365
  let doy := doe - (365 * yoe + yoe / 4 - yoe / 100)
  let mp := (5 * doy + 2) / 153
  (if mp < 10 then mp + 3 else mp - 9).toNat

/-- `datetime.month` of a unix timestamp. -/
def monthOfTs (t : ℤ) : ℕ := monthOfDays (t.fdiv 86400)

/-! ## Data model (`@dataclass` definitions) -/

/-- `EnergyNode`: an energy monitoring node. -/
structure EnergyNode where
  node_id : String
  location : ℚ × ℚ
  latitude : ℚ
  longitude : ℚ
  pattern_type : String
  active : Bool
  registered_at : ℤ
  multiplier : ℚ
  density : String
deriving DecidableEq, Inhabited

/-- `EnergyDataPoint`: one hourly measurement. -/
structure EnergyDataPoint where
  data_id : String
  node_id : String
  kwh : ℚ
  location : ℚ × ℚ
  timestamp : ℤ
  hour : ℕ
  day_of_week : ℕ
  month : ℕ
  pattern_type : String
  anomaly : Bool
deriving DecidableEq, Inhabited

/-- `UsagePattern`: an energy usage pattern definition. -/
structure UsagePattern where
  baseline_kwh : ℚ
  peak_kwh : ℚ
  peak_hours : List ℕ
  weekday_multiplier : ℚ
  weekend_multiplier : ℚ
  seasonal_variation : ℚ
  noise_level : ℚ
deriving DecidableEq, Inhabited

/-- `_initialize_patterns`: the five named usage patterns. -/
def patterns : List (String × UsagePattern) :=
  [("residential",
    { baseline_kwh := 1/2, peak_kwh := 7/2, peak_hours := [18, 19, 20, 21],
      weekday_multiplier := 1, weekend_multiplier := 6/5,
      seasonal_variation := 3/10, noise_level := 3/20 }),
   ("commercial",
    { baseline_kwh := 2, peak_kwh := 15, peak_hours := [9, 10, 11, 14, 15, 16],
      weekday_multiplier := 1, weekend_multiplier := 3/10,
      seasonal_variation := 2/5, noise_level := 3/25 }),
   ("industrial",
    { baseline_kwh := 25, peak_kwh := 45, peak_hours := [8, 9, 10, 13, 14, 15],
      weekday_multiplier := 1, weekend_multiplier := 4/5,
      seasonal_variation := 1/5, noise_level := 2/25 }),
   ("datacenter",
    { baseline_kwh := 50, peak_kwh := 65, peak_hours := [14, 15, 16],
      weekday_multiplier := 1, weekend_multiplier := 49/50,
      seasonal_variation := 1/10, noise_level := 1/20 }),
   ("mixed",
    { baseline_kwh := 5, peak_kwh := 20, peak_hours := [9, 10, 11, 18, 19, 20],
      weekday_multiplier := 1, weekend_multiplier := 7/10,
      seasonal_variation := 1/4, noise_level := 1/5 })]

/-- `self.patterns[key]`.  Python raises `KeyError` for an unknown key;
no claim exercises that case, so the lookup is totalised with the
residential pattern as junk value. -/
def patternFor (key : String) : UsagePattern :=
  ((patterns.find? (fun p => p.1 == key)).map Prod.snd).getD
    (patterns.headI.2)

/-- A geographic area of `_initialize_locations`. -/
structure GeoArea where
  name : String
  center_lat : ℚ
  center_lon : ℚ
  lat_lo : ℚ
  lat_hi : ℚ
  lon_lo : ℚ
  lon_hi : ℚ
  population_density : String
deriving DecidableEq, Inhabited

/-- The five urban metropolitan areas. -/
def urban_areas : List GeoArea :=
  [{ name := "New York", center_lat := 407128/10000, center_lon := -740060/10000,
     lat_lo := 404774/10000, lat_hi := 409176/10000,
     lon_lo := -742591/10000, lon_hi := -737004/10000,
     population_density := "very_high" },
   { name := "Los Angeles", center_lat := 340522/10000, center_lon := -1182437/10000,
     lat_lo := 337037/10000, lat_hi := 343373/10000,
     lon_lo := -1186681/10000, lon_hi := -1181553/10000,
     population_density := "high" },
   { name := "Chicago", center_lat := 418781/10000, center_lon := -876298/10000,
     lat_lo := 416444/10000, lat_hi := 420230/10000,
     lon_lo := -879401/10000, lon_hi := -875240/10000,
     population_density := "high" },
   { name := "Houston", center_lat := 297604/10000, center_lon := -953698/10000,
     lat_lo := 295200/10000, lat_hi := 301100/10000,
     lon_lo := -958230/10000, lon_hi := -950140/10000,
     population_density := "medium" },
   { name := "Phoenix", center_lat := 334484/10000, center_lon := -1120740/10000,
     lat_lo := 332000/10000, lat_hi := 337000/10000,
     lon_lo := -1123500/10000, lon_hi := -1118000/10000,
     population_density := "medium" }]

/-- The two suburban areas. -/
def suburban_areas : List GeoArea :=
  [{ name := "San Jose", center_lat := 373382/10000, center_lon := -1218863/10000,
     lat_lo := 371000/10000, lat_hi := 375000/10000,
     lon_lo := -1221000/10000, lon_hi := -1216000/10000,
     population_density := "medium" },
   { name := "Austin", center_lat := 302672/10000, center_lon := -977431/10000,
     lat_lo := 300000/10000, lat_hi := 305000/10000,
     lon_lo := -980000/10000, lon_hi := -975000/10000,
     population_density := "medium" }]

/-- The two rural areas. -/
def rural_areas : List GeoArea :=
  [{ name := "Montana Rural", center_lat := 470527/10000, center_lon := -1096333/10000,
     lat_lo := 450000/10000, lat_hi := 490000/10000,
     lon_lo := -1160000/10000, lon_hi := -1040000/10000,
     population_density := "low" },
   { name := "Kansas Rural", center_lat := 385266/10000, center_lon := -967265/10000,
     lat_lo := 370000/10000, lat_hi := 400000/10000,
     lon_lo := -1020000/10000, lon_hi := -945000/10000,
     population_density := "low" }]

/-- `self.metropolitan_areas.get(location_pattern, self.metropolitan_areas["urban"])`:
the catalog for a density class, with the urban catalog as the default
of the dictionary lookup. -/
def areasFor (location_pattern : String) : List GeoArea :=
  if location_pattern = "urban" then urban_areas
  else if location_pattern = "suburban" then suburban_areas
  else if location_pattern = "rural" then rural_areas
  else urban_areas

/-! ## NodeFactory (`generate_nodes`)

Per node the source draws, in order: the weighted pattern choice, the
area choice, the latitude, the longitude, the active flag, the
registration offset, the individual multiplier — seven draws. -/

/-- The default `pattern_distribution` of `generate_nodes`. -/
def default_distribution : List (String × ℚ) :=
  [("residential", 3/5), ("commercial", 1/4),
   ("industrial", 1/10), ("datacenter", 1/20)]

/-- One loop iteration of `generate_nodes`: builds the node numbered
`ctr` from the next seven draws of `s`. -/
def mkNode (dist : List (String × ℚ)) (areas : List GeoArea) (now : ℤ)
    (ctr : ℕ) (s : Draws) : EnergyNode :=
  let pattern_type := weightedChoice dist (s 0)
  let area := areas.getD (choiceIdx (s 1) areas.length) default
  let lat0 := uniform area.lat_lo area.lat_hi (s 2)
  let lon0 := uniform area.lon_lo area.lon_hi (s 3)
  let lat := if pattern_type = "commercial"
    then lat0 * (7/10) + area.center_lat * (3/10) else lat0
  let lon := if pattern_type = "commercial"
    then lon0 * (7/10) + area.center_lon * (3/10) else lon0
  { node_id := "node_" ++ pad0 6 ctr,
    location := (round4 lat, round4 lon),
    latitude := lat,
    longitude := lon,
    pattern_type := pattern_type,
    active := decide ((1/20 : ℚ) < s 4),
    registered_at := now - (randint (s 5) (86400 * 30) : ℤ),
    multiplier := uniform (4/5) (13/10) (s 6),
    density := area.population_density }

/-- The `for i in range(count)` loop of `generate_nodes`. -/
def genNodesLoop (dist : List (String × ℚ)) (areas : List GeoArea)
    (now : ℤ) : ℕ → ℕ → Draws → List EnergyNode
  | 0, _, _ => []
  | count + 1, ctr, s =>
    mkNode dist areas now ctr s ::
      genNodesLoop dist areas now count (ctr + 1) (s.drop 7)

/-- `generate_nodes(count, location_pattern, pattern_distribution)`.
`now` models `time.time()`, `s` the RNG state, `ctr` the process-wide
`node_counter` at entry. -/
def generate_nodes (count : ℕ) (location_pattern : String)
    (dist : List (String × ℚ)) (now : ℤ) (s : Draws) (ctr : ℕ) :
    List EnergyNode :=
  genNodesLoop dist (areasFor location_pattern) now count ctr s

/-! ## SeriesSynthesizer (`generate_time_series`)

Per hour the source draws the noise sample and the anomaly check; when
the anomaly fires it additionally draws the low factor, the high factor
and the choice between them (the two-element list is built before
`random.choice` picks from it) — 2 draws per hour, 5 on an anomaly. -/

/-- The body of the `for hour in range(duration_hours)` loop of
`_generate_node_time_series` at timestamp `t`: the produced point and
the number of draws consumed. -/
def hourPoint (node : EnergyNode) (pat : UsagePattern) (sinQ : ℕ → ℚ)
    (t : ℤ) (anomaly_probability : ℚ) (dctr : ℕ) (s : Draws) :
    EnergyDataPoint × ℕ :=
  let hour_of_day := hourOfTs t
  let day_of_week := weekdayOfTs t
  let month := monthOfTs t
  let base := if hour_of_day ∈ pat.peak_hours then pat.peak_kwh
    else pat.baseline_kwh
  let afterWeekend := if 5 ≤ day_of_week
    then base * pat.weekend_multiplier else base
  let seasonal_factor := 1 + pat.seasonal_variation * sinQ month
  let afterSeason := afterWeekend * seasonal_factor
  let afterMult := afterSeason * node.multiplier
  let noise := pat.noise_level * s 0
  let afterNoise := afterMult * (1 + noise)
  let is_anomaly := decide (s 1 < anomaly_probability)
  let (kwhRaw, consumed) :=
    if s 1 < anomaly_probability then
      let low := uniform (1/10) (3/10) (s 2)
      let high := uniform 2 5 (s 3)
      let factor := if choiceIdx (s 4) 2 = 0 then low else high
      (afterNoise * factor, 5)
    else (afterNoise, 2)
  let kwh := max (1/10) kwhRaw
  ({ data_id := "data_" ++ pad0 8 dctr,
     node_id := node.node_id,
     kwh := round3 kwh,
     location := node.location,
     timestamp := t,
     hour := hour_of_day,
     day_of_week := day_of_week,
     month := month,
     pattern_type := node.pattern_type,
     anomaly := is_anomaly }, consumed)

/-- The hour loop of `_generate_node_time_series`: `hoursLeft` hours
starting at hour index `h`, threading the data counter and the RNG. -/
def genNodeHours (node : EnergyNode) (pat : UsagePattern) (sinQ : ℕ → ℚ)
    (start : ℤ) (anomaly_probability : ℚ) :
    ℕ → ℕ → ℕ → Draws → List EnergyDataPoint × ℕ × Draws
  | 0, _, dctr, s => ([], dctr, s)
  | hoursLeft + 1, h, dctr, s =>
    let pc :=
      hourPoint node pat sinQ (start + 3600 * h) anomaly_probability dctr s
    let rest :=
      genNodeHours node pat sinQ start anomaly_probability
        hoursLeft (h + 1) (dctr + 1) (s.drop pc.2)
    (pc.1 :: rest.1, rest.2.1, rest.2.2)

/-- `generate_time_series(nodes, start_date, duration_hours,
anomaly_probability)`: synthesises each active node in order and
concatenates, threading the data counter and the RNG; inactive nodes
are skipped. -/
def generate_time_series (sinQ : ℕ → ℚ) (nodes : List EnergyNode)
    (start : ℤ) (duration_hours : ℕ) (anomaly_probability : ℚ)
    (dctr : ℕ) (s : Draws) : List EnergyDataPoint × ℕ × Draws :=
  match nodes with
  | [] => ([], dctr, s)
  | node :: rest =>
    if node.active then
      let pat := patternFor node.pattern_type
      let (pts, dctr', s') :=
        genNodeHours node pat sinQ start anomaly_probability
          duration_hours 0 dctr s
      let (more, dctr'', s'') :=
        generate_time_series sinQ rest start duration_hours
          anomaly_probability dctr' s'
      (pts ++ more, dctr'', s'')
    else
      generate_time_series sinQ rest start duration_hours
        anomaly_probability dctr s

/-! ## DatasetMerger (`merge_with_kaggle_data`)

The external table is `Option Table` (`none` when `pd.read_csv` fails).
External parsers are oracles: `parseFloat` models `float(...)` on a
string cell (`none` = `ValueError`), `parseDT` models
`int(pd.to_datetime(...).timestamp())` on a string cell (`none` = a
parse error).  The whole body runs under `try/except Exception`, so any
mid-loop failure discards everything and yields `[]`; this is the
`Except Unit` layer, entered by `datetime.fromtimestamp` on an
out-of-range timestamp and by `df.columns[1]` on a table of fewer than
two columns. -/

/-- One cell of the external table: a numeric value, a string, or a
missing value (`NaN`, for which `pd.isna` is true). -/
inductive Cell
  | num (q : ℚ)
  | str (t : String)
  | na
deriving DecidableEq, Inhabited

/-- The external table: column names and aligned rows. -/
structure Table where
  columns : List String
  rows : List (List Cell)
deriving DecidableEq, Inhabited

/-- `row[column]` on a `pd.Series` row, `none` when
`column in row` is false. -/
def rowGet (cols : List String) (row : List Cell) (col : String) :
    Option Cell :=
  match cols.indexOf? col with
  | some i => row.get? i
  | none => none

/-- `pd.isna(value)`. -/
def pdIsna : Cell → Bool
  | .na => true
  | _ => false

/-- Python `int(...)` on a float: truncation toward zero. -/
def truncQ (q : ℚ) : ℤ := Int.tdiv q.num q.den

/-- `_safe_extract_numeric(row, column)`: `None` when the column is
absent, the value missing, or `float(value)` raises. -/
def safe_extract_numeric (parseFloat : String → Option ℚ)
    (cols : List String) (row : List Cell) (col : String) : Option ℚ :=
  match rowGet cols row col with
  | none => none
  | some .na => none
  | some (.num q) => some q
  | some (.str t) => parseFloat t

/-- `_safe_extract_timestamp(row, column)`: the extracted value and the
number of draws consumed (the fallback `int(time.time()) -
random.randint(0, 86400 * 365)` consumes one).  A present missing value
returns `None`; an absent column or an unparseable string reaches the
fallback; a numeric value above `1e9` is taken as unix seconds,
otherwise it is multiplied by 1000. -/
def safe_extract_timestamp (parseDT : String → Option ℤ)
    (cols : List String) (row : List Cell) (col : String)
    (now : ℤ) (s : Draws) : Option ℤ × ℕ :=
  match rowGet cols row col with
  | some .na => (none, 0)
  | some (.num q) =>
    (some (if 1000000000 < q then truncQ q else truncQ (q * 1000)), 0)
  | some (.str t) =>
    match parseDT t with
    | some ts => (some ts, 0)
    | none => (some (now - (randint (s 0) (86400 * 365) : ℤ)), 1)
  | none => (some (now - (randint (s 0) (86400 * 365) : ℤ)), 1)

/-- `_safe_extract_string(row, column)`: the extracted string and the
number of draws consumed; `fake.uuid4()` is modelled as a token built
from one draw, and `str(...)` of a numeric cell is modelled as the
rational rendered as `num/den` (Python renders the float decimally; no
claim depends on the spelling). -/
def safe_extract_string (cols : List String) (row : List Cell)
    (col : String) (s : Draws) : String × ℕ :=
  match rowGet cols row col with
  | some (.str t) => (t, 0)
  | some (.num q) => (toString q.num ++ "/" ++ toString q.den, 0)
  | some .na => ("uuid_" ++ toString (Int.toNat (qfloor (s 0 * 1000000000))), 1)
  | none => ("uuid_" ++ toString (Int.toNat (qfloor (s 0 * 1000000000))), 1)

/-- `_generate_realistic_location()`: a random urban area, then a
uniform coordinate in its bounding box; three draws.  Only the
formatted location string (modelled as the rounded pair) is used by the
caller. -/
def generate_realistic_location (s : Draws) : ℚ × ℚ :=
  let area := urban_areas.getD (choiceIdx (s 0) urban_areas.length) default
  let lat := uniform area.lat_lo area.lat_hi (s 1)
  let lon := uniform area.lon_lo area.lon_hi (s 2)
  (round4 lat, round4 lon)

/-- The fixed usage-level thresholds of `merge_with_kaggle_data`. -/
def classify_kwh (kwh : ℚ) : String :=
  if kwh < 5 then "residential"
  else if kwh < 20 then "commercial"
  else if kwh < 50 then "industrial"
  else "datacenter"

/-- The candidate substrings for the energy column. -/
def energy_candidates : List String :=
  ["energy", "kwh", "consumption", "usage", "power"]

/-- The candidate substrings for the timestamp column. -/
def timestamp_candidates : List String :=
  ["timestamp", "datetime", "date_time", "time", "date"]

/-- The candidate substrings for the meter column. -/
def meter_candidates : List String :=
  ["meter_id", "id", "meter", "device_id", "user_id"]

/-- Column auto-detection for one target: the first column whose name
contains any candidate, case-insensitively. -/
def detectColumn (cols : List String) (candidates : List String) :
    Option String :=
  cols.find? (fun col => candidates.any (fun cand => containsCI cand col))

/-- Remove and return the element at index `i`. -/
def pickAt (l : List (List Cell)) (i : ℕ) :
    Option (List Cell × List (List Cell)) :=
  (l.get? i).map (fun x => (x, l.take i ++ l.drop (i + 1)))

/-- `df.sample(n=...)`: a uniform sample of `n` rows without
replacement, modelled by stream-driven index selection; consumes one
draw per sampled row. -/
def sampleRows : ℕ → List (List Cell) → Draws → List (List Cell)
  | 0, _, _ => []
  | _ + 1, [], _ => []
  | n + 1, rows, s =>
    match pickAt rows (choiceIdx (s 0) rows.length) with
    | some (row, rest) => row :: sampleRows n rest (s.drop 1)
    | none => []

/-- The valid input range of `datetime.fromtimestamp` at offset 0:
year 1 through year 9999. -/
def tsMin : ℤ := -62135596800

/-- Upper end of the `datetime.fromtimestamp` range. -/
def tsMax : ℤ := 253402300799

/-- The `for idx, row in sample_df.iterrows()` loop of
`merge_with_kaggle_data` over the sampled rows: emitted points and the
final data counter, or the exception swallowed by the outer handler. -/
def merge_rows (parseFloat : String → Option ℚ)
    (parseDT : String → Option ℤ) (cols : List String)
    (ecol tcol mcol : String) (now : ℤ) :
    List (List Cell) → ℕ → Draws →
    Except Unit (List EnergyDataPoint × ℕ)
  | [], dctr, _ => .ok ([], dctr)
  | row :: rest, dctr, s =>
    let kwh? := safe_extract_numeric parseFloat cols row ecol
    let tsr := safe_extract_timestamp parseDT cols row tcol now s
    let mr := safe_extract_string cols row mcol (s.drop tsr.2)
    let s' := s.drop (tsr.2 + mr.2)
    match kwh?, tsr.1 with
    | some kwh, some ts =>
      let loc := generate_realistic_location s'
      let kwh_varied := kwh * uniform (4/5) (6/5) (s' 3)
      let pattern_type := classify_kwh kwh_varied
      if ts < tsMin ∨ tsMax < ts then .error ()
      else
        match merge_rows parseFloat parseDT cols ecol tcol mcol now
          rest (dctr + 1) (s'.drop 4) with
        | .error e => .error e
        | .ok (pts, dctr') =>
          .ok ({ data_id := "kaggle_" ++ pad0 8 dctr,
                 node_id := "kaggle_" ++ mr.1,
                 kwh := round3 kwh_varied,
                 location := loc,
                 timestamp := ts,
                 hour := hourOfTs ts,
                 day_of_week := weekdayOfTs ts,
                 month := monthOfTs ts,
                 pattern_type := pattern_type,
                 anomaly := false } :: pts, dctr')
    | _, _ =>
      merge_rows parseFloat parseDT cols ecol tcol mcol now rest dctr s'

/-- `merge_with_kaggle_data(kaggle_csv_path, sample_size)`.  The path
argument becomes `Option Table`: `none` when the dataset cannot be read
(missing file or malformed table), in which case — as for every other
exception of the body — the handler yields `[]`. -/
def merge_with_kaggle_data (parseFloat : String → Option ℚ)
    (parseDT : String → Option ℤ) (table? : Option Table)
    (sample_size : ℕ) (now : ℤ) (s : Draws) (dctr : ℕ) :
    List EnergyDataPoint :=
  match table? with
  | none => []
  | some df =>
    if df.columns.length < 2 then []
    else
      let ecol := (detectColumn df.columns energy_candidates).getD
        (df.columns.getD 0 "")
      let tcol := (detectColumn df.columns timestamp_candidates).getD
        (df.columns.getD 1 "")
      let mcol := (detectColumn df.columns meter_candidates).getD
        "synthetic"
      let n := min sample_size df.rows.length
      let sample := sampleRows n df.rows s
      match merge_rows parseFloat parseDT df.columns ecol tcol mcol now
        sample dctr (s.drop n) with
      | .ok (pts, _) => pts
      | .error _ => []

/-! ## Helper lemmas -/

theorem genNodesLoop_length (dist : List (String × ℚ))
    (areas : List GeoArea) (now : ℤ) :
    ∀ (count ctr : ℕ) (s : Draws),
    (genNodesLoop dist areas now count ctr s).length = count := by
  intro count
  induction count with
  | zero => intro ctr s; rfl
  | succ n ih =>
    intro ctr s
    simp [genNodesLoop, ih]

theorem mkNode_erase_registered (dist : List (String × ℚ))
    (areas : List GeoArea) (now₁ now₂ : ℤ) (ctr : ℕ) (s : Draws) :
    { mkNode dist areas now₁ ctr s with registered_at := 0 } =
    { mkNode dist areas now₂ ctr s with registered_at := 0 } := by
  rfl

theorem round3_ge_tenth (q : ℚ) (h : 1/10 ≤ q) : 1/10 ≤ round3 q := by
  unfold round3
  rw [qfloor_eq_floor]
  have h100 : (100 : ℤ) ≤ ⌊q * 1000 + 1/2⌋ := by
    rw [Int.le_floor]
    push_cast
    nlinarith
  have : (100 : ℚ) ≤ (⌊q * 1000 + 1/2⌋ : ℚ) := by exact_mod_cast h100
  linarith

theorem hourPoint_kwh_ge (node : EnergyNode) (pat : UsagePattern)
    (sinQ : ℕ → ℚ) (t : ℤ) (p : ℚ) (dctr : ℕ) (s : Draws) :
    1/10 ≤ (hourPoint node pat sinQ t p dctr s).1.kwh := by
  unfold hourPoint
  by_cases hc : s 1 < p <;>
    simp only [hc, if_true, if_false, reduceIte] <;>
    exact round3_ge_tenth _ (le_max_left _ _)

/-! ## C8: an unreadable dataset yields an empty result -/

/-- C8: if the external dataset cannot be read at all (missing file or
malformed table, modelled as `table? = none`), `merge_with_kaggle_data`
returns the empty sequence; the exception is absorbed by the handler,
never propagated. -/
theorem c8_unreadable_dataset_yields_empty
    (parseFloat : String → Option ℚ) (parseDT : String → Option ℤ)
    (sample_size : ℕ) (now : ℤ) (s : Draws) (dctr : ℕ) :
    merge_with_kaggle_data parseFloat parseDT none sample_size now s dctr
      = [] := rfl

/-! ## C10: unknown density classes fall back to the urban catalog -/

/-- C10: calling `generate_nodes` with a density class that is none of
urban, suburban, rural does not fail: the dictionary lookup falls back
to the urban catalog, the run is identical to an urban run on the same
draws, and exactly `count` nodes are returned. -/
theorem c10_unknown_density_falls_back_to_urban (count : ℕ)
    (lp : String) (dist : List (String × ℚ)) (now : ℤ) (s : Draws)
    (ctr : ℕ) (h₁ : lp ≠ "urban") (h₂ : lp ≠ "suburban")
    (h₃ : lp ≠ "rural") :
    generate_nodes count lp dist now s ctr =
      generate_nodes count "urban" dist now s ctr ∧
    (generate_nodes count lp dist now s ctr).length = count := by
  have harea : areasFor lp = urban_areas := by
    simp [areasFor, h₁, h₂, h₃]
  constructor
  · unfold generate_nodes
    rw [harea]
    rfl
  · unfold generate_nodes
    exact genNodesLoop_length _ _ _ _ _ _

/-- Witness for C10 at a concrete unknown density class. -/
theorem c10_witness :
    generate_nodes 5 "downtown" default_distribution 0 (fun _ => 0) 0 =
      generate_nodes 5 "urban" default_distribution 0 (fun _ => 0) 0 ∧
    (generate_nodes 5 "downtown" default_distribution 0 (fun _ => 0) 0).length
      = 5 :=
  c10_unknown_density_falls_back_to_urban 5 "downtown"
    default_distribution 0 (fun _ => 0) 0
    (by decide) (by decide) (by decide)

/-! ## C7 (corrected): determinism holds only up to the wall clock

`generate_nodes` reads `time.time()` for `registered_at`, so two runs
with the same seed at different wall-clock times differ in that field.
Everything else is a pure function of the inputs and the draws. -/

/-- C7 counterexample: with the random source fixed (same draw stream)
and all inputs identical, two runs of `generate_nodes` at different
wall-clock times produce different `registered_at` fields — the output
is not independent of when the run happens. -/
theorem c7_counterexample :
    (generate_nodes 1 "urban" default_distribution 0 (fun _ => 0) 0).map
        EnergyNode.registered_at ≠
      (generate_nodes 1 "urban" default_distribution 86400 (fun _ => 0) 0).map
        EnergyNode.registered_at := by
  have h1 : (generate_nodes 1 "urban" default_distribution 0
      (fun _ => 0) 0).map EnergyNode.registered_at = [0] := by
    norm_num [generate_nodes, genNodesLoop, mkNode, randint, qfloor]
  have h2 : (generate_nodes 1 "urban" default_distribution 86400
      (fun _ => 0) 0).map EnergyNode.registered_at = [86400] := by
    norm_num [generate_nodes, genNodesLoop, mkNode, randint, qfloor]
  rw [h1, h2]
  decide

/-- C7 amended: with the random source seeded (same draw stream) and
identical inputs, `generate_nodes` yields nodes identical in every
field except `registered_at` (which is the wall clock minus the same
random offset, so it shifts with the time of the run);
`generate_time_series` takes no wall-clock input at all, so its output
is a function of its arguments and the draws alone. -/
theorem c7_seeded_runs_agree_except_registered_at (count : ℕ)
    (lp : String) (dist : List (String × ℚ)) (s : Draws) (ctr : ℕ)
    (now₁ now₂ : ℤ) :
    (generate_nodes count lp dist now₁ s ctr).map
        (fun n => { n with registered_at := 0 }) =
      (generate_nodes count lp dist now₂ s ctr).map
        (fun n => { n with registered_at := 0 }) := by
  unfold generate_nodes
  induction count generalizing ctr s with
  | zero => rfl
  | succ n ih =>
    simp only [genNodesLoop, List.map_cons]
    rw [mkNode_erase_registered _ _ now₁ now₂, ih]

/-! ## C4: output structure of `generate_time_series` -/

theorem genNodeHours_map_node_id (node : EnergyNode)
    (pat : UsagePattern) (sinQ : ℕ → ℚ) (start : ℤ) (p : ℚ) :
    ∀ (n h dctr : ℕ) (s : Draws),
    ((genNodeHours node pat sinQ start p n h dctr s).1).map
        EnergyDataPoint.node_id =
      List.replicate n node.node_id := by
  intro n
  induction n with
  | zero => intro h dctr s; rfl
  | succ m ih =>
    intro h dctr s
    simp only [genNodeHours, List.map_cons, List.replicate_succ, ih]
    rfl

theorem genNodeHours_map_timestamp (node : EnergyNode)
    (pat : UsagePattern) (sinQ : ℕ → ℚ) (start : ℤ) (p : ℚ) :
    ∀ (n h dctr : ℕ) (s : Draws),
    ((genNodeHours node pat sinQ start p n h dctr s).1).map
        EnergyDataPoint.timestamp =
      (List.range' h n).map (fun k => start + 3600 * (k : ℤ)) := by
  intro n
  induction n with
  | zero => intro h dctr s; rfl
  | succ m ih =>
    intro h dctr s
    simp only [genNodeHours, List.map_cons, List.range'_succ, ih]
    rfl

/-- C4: for every node list, start time and duration, the output of
`generate_time_series` is the concatenation, in input node order, of
per-node blocks; each active node contributes exactly `duration_hours`
points (inactive nodes none), and within a block the timestamps start
at `start_time` and advance by one hour (3600 s) per point — in
particular they are strictly increasing. -/
theorem c4_series_structure (sinQ : ℕ → ℚ) (nodes : List EnergyNode)
    (start : ℤ) (duration_hours : ℕ) (p : ℚ) (dctr : ℕ) (s : Draws) :
    ((generate_time_series sinQ nodes start duration_hours p dctr s).1).map
        EnergyDataPoint.node_id =
      (nodes.filter (fun n => n.active)).flatMap
        (fun n => List.replicate duration_hours n.node_id) ∧
    ((generate_time_series sinQ nodes start duration_hours p dctr s).1).map
        EnergyDataPoint.timestamp =
      (nodes.filter (fun n => n.active)).flatMap
        (fun _ => (List.range duration_hours).map
          (fun h => start + 3600 * (h : ℤ))) := by
  rw [List.range_eq_range']
  induction nodes generalizing dctr s with
  | nil => exact ⟨rfl, rfl⟩
  | cons node rest ih =>
    by_cases ha : node.active
    · obtain ⟨ih1, ih2⟩ := ih
        (genNodeHours node (patternFor node.pattern_type) sinQ start p
          duration_hours 0 dctr s).2.1
        (genNodeHours node (patternFor node.pattern_type) sinQ start p
          duration_hours 0 dctr s).2.2
      refine ⟨?_, ?_⟩ <;>
        simp only [generate_time_series, ha, if_true, List.filter_cons,
          List.flatMap_cons, List.map_append, ih1, ih2,
          genNodeHours_map_node_id node _ sinQ start p,
          genNodeHours_map_timestamp node _ sinQ start p]
    · have ha' : node.active = false := by simpa using ha
      obtain ⟨ih1, ih2⟩ := ih dctr s
      refine ⟨?_, ?_⟩ <;>
        simp only [generate_time_series, ha', if_false, Bool.false_eq_true,
          List.filter_cons, ih1, ih2]

/-! ## Concrete fixtures used by counterexamples and witnesses -/

/-- An oracle on which `float(...)` always raises. -/
def noFloat : String → Option ℚ := fun _ => none

/-- An oracle on which `pd.to_datetime(...)` always raises. -/
def noDT : String → Option ℤ := fun _ => none

/-- The all-zero draw stream. -/
def zeroDraws : Draws := fun _ => 0

/-- The constant one-half draw stream. -/
def halfDraws : Draws := fun _ => 1/2

/-- Column names shared by the concrete merge tables. -/
def colsCE : List String := ["energy", "timestamp"]

/-! ## C1 (corrected): the 0.1 kWh floor holds only on the synthetic path

`_generate_node_time_series` clamps with `max(0.1, kwh)` before
rounding, but `merge_with_kaggle_data` rounds `kwh * uniform(0.8, 1.2)`
with no floor at all. -/

/-- A one-row external table whose energy value is 0. -/
def tblKwhZero : Table :=
  { columns := colsCE, rows := [[Cell.num 0, Cell.num 2000000000]] }

/-- The single data point produced by merging `tblKwhZero` on the zero
stream (location and calendar fields left as their defining
expressions). -/
def ptKwhZero : EnergyDataPoint :=
  { data_id := "kaggle_00000000",
    node_id := "kaggle_uuid_0",
    kwh := 0,
    location := generate_realistic_location ((zeroDraws.drop 1).drop 1),
    timestamp := 2000000000,
    hour := hourOfTs 2000000000,
    day_of_week := weekdayOfTs 2000000000,
    month := monthOfTs 2000000000,
    pattern_type := "residential",
    anomaly := false }

/-- Evaluation of the merge of `tblKwhZero` on the zero stream. -/
theorem merge_tblKwhZero_eq :
    merge_with_kaggle_data noFloat noDT (some tblKwhZero) 1000 0
      zeroDraws 0 = [ptKwhZero] := by
  have hd1 : detectColumn colsCE energy_candidates = some "energy" := by
    decide
  have hd2 : detectColumn colsCE timestamp_candidates = some "timestamp" := by
    decide
  have hd3 : detectColumn colsCE meter_candidates = Option.none := by decide
  have hsamp : sampleRows 1 [[Cell.num 0, Cell.num 2000000000]] zeroDraws
      = [[Cell.num 0, Cell.num 2000000000]] := by
    norm_num [sampleRows, pickAt, choiceIdx, qfloor, zeroDraws]
  have hk : safe_extract_numeric noFloat colsCE
      [Cell.num 0, Cell.num 2000000000] "energy" = some 0 := rfl
  have ht : safe_extract_timestamp noDT colsCE
      [Cell.num 0, Cell.num 2000000000] "timestamp" 0 (zeroDraws.drop 1)
      = (some 2000000000, 0) := by
    have h1 : truncQ 2000000000 = 2000000000 := by norm_num [truncQ]
    have h2 : rowGet colsCE [Cell.num 0, Cell.num 2000000000] "timestamp"
        = some (Cell.num 2000000000) := rfl
    norm_num [safe_extract_timestamp, h1, h2]
  have hm : safe_extract_string colsCE [Cell.num 0, Cell.num 2000000000]
      "synthetic" ((zeroDraws.drop 1).drop 0) = ("uuid_0", 1) := by
    have h2 : rowGet colsCE [Cell.num 0, Cell.num 2000000000] "synthetic"
        = Option.none := rfl
    have h3 : qfloor ((zeroDraws.drop 1).drop 0 0 * 1000000000) = 0 := by
      norm_num [qfloor, zeroDraws, Draws.drop]
    norm_num [safe_extract_string, h2, h3]
    decide
  have hrows : merge_rows noFloat noDT colsCE "energy" "timestamp"
      "synthetic" 0 [[Cell.num 0, Cell.num 2000000000]] 0
      (zeroDraws.drop 1) = .ok ([ptKwhZero], 1) := by
    norm_num [merge_rows, hk, ht, hm, tsMin, tsMax, uniform, classify_kwh,
      round3, qfloor, zeroDraws, Draws.drop, pad0, ptKwhZero]
    decide
  have hcols : tblKwhZero.columns = colsCE := rfl
  have hrows' : tblKwhZero.rows = [[Cell.num 0, Cell.num 2000000000]] :=
    rfl
  simp only [merge_with_kaggle_data, hcols, hrows', hd1, hd2, hd3]
  norm_num [hsamp, hrows]
  decide

/-- C1 counterexample: merging a table whose (parseable) energy value
is 0 emits a data point with `kwh = 0 < 0.1`, so not every
`EnergyDataPoint` produced by the engine has `kwh ≥ 0.1`. -/
theorem c1_counterexample :
    ((merge_with_kaggle_data noFloat noDT (some tblKwhZero) 1000 0
        zeroDraws 0).all
      (fun pt => decide ((1:ℚ)/10 ≤ pt.kwh))) = false := by
  rw [merge_tblKwhZero_eq]
  norm_num [ptKwhZero]

theorem genNodeHours_kwh_floor (node : EnergyNode) (pat : UsagePattern)
    (sinQ : ℕ → ℚ) (start : ℤ) (p : ℚ) :
    ∀ (n h dctr : ℕ) (s : Draws),
    ((genNodeHours node pat sinQ start p n h dctr s).1.all
      (fun pt => decide ((1:ℚ)/10 ≤ pt.kwh))) = true := by
  intro n
  induction n with
  | zero => intro h dctr s; rfl
  | succ m ih =>
    intro h dctr s
    simp only [genNodeHours, List.all_cons, ih, Bool.and_true,
      decide_eq_true_eq]
    exact hourPoint_kwh_ge node pat sinQ _ p dctr s

/-- C1 amended: every data point emitted by `generate_time_series` has
`kwh ≥ 0.1` (the synthesizer clamps at 0.1 before rounding);
`merge_with_kaggle_data` applies no floor, so a merged point's kwh is
just the source value times the variation factor, rounded — and can be
below 0.1. -/
theorem c1_synthetic_kwh_floor (sinQ : ℕ → ℚ) (nodes : List EnergyNode)
    (start : ℤ) (duration_hours : ℕ) (p : ℚ) (dctr : ℕ) (s : Draws) :
    ((generate_time_series sinQ nodes start duration_hours p dctr s).1.all
      (fun pt => decide ((1:ℚ)/10 ≤ pt.kwh))) = true := by
  induction nodes generalizing dctr s with
  | nil => rfl
  | cons node rest ih =>
    by_cases ha : node.active
    · simp only [generate_time_series, ha, if_true, List.all_append,
        genNodeHours_kwh_floor, ih, Bool.and_self]
    · have ha' : node.active = false := by simpa using ha
      simp only [generate_time_series, ha', if_false, Bool.false_eq_true,
        ih]

/-! ## C9: hour, day-of-week and month always match the timestamp -/

/-- The invariant of C9: a data point's `hour`, `day_of_week` and
`month` fields are exactly those decoded from its `timestamp` (local
time at fixed offset). -/
def timeFieldsMatch (pt : EnergyDataPoint) : Bool :=
  (pt.hour == hourOfTs pt.timestamp) &&
  (pt.day_of_week == weekdayOfTs pt.timestamp) &&
  (pt.month == monthOfTs pt.timestamp)

theorem hourPoint_timeFieldsMatch (node : EnergyNode)
    (pat : UsagePattern) (sinQ : ℕ → ℚ) (t : ℤ) (p : ℚ) (dctr : ℕ)
    (s : Draws) :
    timeFieldsMatch (hourPoint node pat sinQ t p dctr s).1 = true := by
  by_cases hc : s 1 < p <;>
    simp [hourPoint, timeFieldsMatch, hc]

theorem genNodeHours_timeFieldsMatch (node : EnergyNode)
    (pat : UsagePattern) (sinQ : ℕ → ℚ) (start : ℤ) (p : ℚ) :
    ∀ (n h dctr : ℕ) (s : Draws),
    ((genNodeHours node pat sinQ start p n h dctr s).1.all
      timeFieldsMatch) = true := by
  intro n
  induction n with
  | zero => intro h dctr s; rfl
  | succ m ih =>
    intro h dctr s
    simp only [genNodeHours, List.all_cons, ih, Bool.and_true,
      hourPoint_timeFieldsMatch]

theorem merge_rows_timeFieldsMatch (parseFloat : String → Option ℚ)
    (parseDT : String → Option ℤ) (cols : List String)
    (ecol tcol mcol : String) (now : ℤ) :
    ∀ (rows : List (List Cell)) (dctr : ℕ) (s : Draws)
      (pts : List EnergyDataPoint) (dctr' : ℕ),
    merge_rows parseFloat parseDT cols ecol tcol mcol now rows dctr s =
      .ok (pts, dctr') →
    (pts.all timeFieldsMatch) = true := by
  intro rows
  induction rows with
  | nil =>
    intro dctr s pts dctr' h
    obtain ⟨rfl, rfl⟩ : pts = [] ∧ dctr' = dctr := by
      simpa [merge_rows] using h.symm
    rfl
  | cons row rest ih =>
    intro dctr s pts dctr' h
    simp only [merge_rows] at h
    rcases hk : safe_extract_numeric parseFloat cols row ecol with _ | kwh <;>
      rcases ht : (safe_extract_timestamp parseDT cols row tcol now s).1
        with _ | ts <;>
      simp only [hk, ht] at h
    · exact ih _ _ _ _ h
    · exact ih _ _ _ _ h
    · exact ih _ _ _ _ h
    · by_cases hr : ts < tsMin ∨ tsMax < ts
      · simp only [hr, if_true, reduceIte] at h
        cases h
      · simp only [hr, if_false, reduceIte] at h
        rcases hrec : merge_rows parseFloat parseDT cols ecol tcol mcol now
            rest (dctr + 1)
            ((s.drop ((safe_extract_timestamp parseDT cols row tcol now s).2 +
              (safe_extract_string cols row mcol
                (s.drop (safe_extract_timestamp parseDT cols row tcol now
                  s).2)).2)).drop 4) with e | pr
        · rw [hrec] at h; cases h
        · rw [hrec] at h
          obtain ⟨pts', dctr''⟩ := pr
          cases h
          simp only [List.all_cons, Bool.and_eq_true]
          exact ⟨by simp [timeFieldsMatch], ih _ _ _ _ hrec⟩

/-- C9: for every `EnergyDataPoint` emitted by `generate_time_series`
or by `merge_with_kaggle_data`, the `hour`, `day_of_week` (0 = Monday)
and `month` fields equal exactly the hour-of-day, weekday and month
decoded from the emitted `timestamp` (local time, modelled at fixed
offset 0). -/
theorem c9_time_fields_derivable (sinQ : ℕ → ℚ)
    (nodes : List EnergyNode) (start : ℤ) (duration_hours : ℕ) (p : ℚ)
    (dctr : ℕ) (s : Draws) (parseFloat : String → Option ℚ)
    (parseDT : String → Option ℤ) (table? : Option Table)
    (sample_size : ℕ) (now : ℤ) (s₂ : Draws) (dctr₂ : ℕ) :
    ((generate_time_series sinQ nodes start duration_hours p dctr s).1.all
      timeFieldsMatch) = true ∧
    ((merge_with_kaggle_data parseFloat parseDT table? sample_size now s₂
        dctr₂).all
      timeFieldsMatch) = true := by
  constructor
  · induction nodes generalizing dctr s with
    | nil => rfl
    | cons node rest ih =>
      by_cases ha : node.active
      · simp only [generate_time_series, ha, if_true, List.all_append,
          genNodeHours_timeFieldsMatch, ih, Bool.and_self]
      · have ha' : node.active = false := by simpa using ha
        simp only [generate_time_series, ha', if_false, Bool.false_eq_true,
          ih]
  · rcases table? with _ | df
    · rfl
    · simp only [merge_with_kaggle_data]
      by_cases hc : df.columns.length < 2
      · simp [hc]
      · simp only [hc, if_false, reduceIte]
        rcases hmr : merge_rows parseFloat parseDT df.columns _ _ _ now
            (sampleRows (min sample_size df.rows.length) df.rows s₂) dctr₂
            (s₂.drop (min sample_size df.rows.length)) with e | pr
        · rfl
        · obtain ⟨pts, dctr'⟩ := pr
          exact merge_rows_timeFieldsMatch _ _ _ _ _ _ _ _ _ _ _ _ hmr

/-! ## C5: generated nodes stay inside their area's bounding box -/

/-- Well-formedness of a catalog area: nonempty bounds containing the
center (a stated invariant of the data model, checked on the concrete
catalog below). -/
def areaWF (a : GeoArea) : Prop :=
  a.lat_lo ≤ a.lat_hi ∧ a.lon_lo ≤ a.lon_hi ∧
  a.lat_lo ≤ a.center_lat ∧ a.center_lat ≤ a.lat_hi ∧
  a.lon_lo ≤ a.center_lon ∧ a.center_lon ≤ a.lon_hi

theorem urban_areas_wf : ∀ a ∈ urban_areas, areaWF a := by
  intro a ha
  fin_cases ha <;> refine ⟨by norm_num, by norm_num, by norm_num,
    by norm_num, by norm_num, by norm_num⟩

theorem suburban_areas_wf : ∀ a ∈ suburban_areas, areaWF a := by
  intro a ha
  fin_cases ha <;> refine ⟨by norm_num, by norm_num, by norm_num,
    by norm_num, by norm_num, by norm_num⟩

theorem rural_areas_wf : ∀ a ∈ rural_areas, areaWF a := by
  intro a ha
  fin_cases ha <;> refine ⟨by norm_num, by norm_num, by norm_num,
    by norm_num, by norm_num, by norm_num⟩

theorem areasFor_cases (lp : String) :
    areasFor lp = urban_areas ∨ areasFor lp = suburban_areas ∨
      areasFor lp = rural_areas := by
  unfold areasFor
  split_ifs <;> tauto

theorem areasFor_wf (lp : String) : ∀ a ∈ areasFor lp, areaWF a := by
  rcases areasFor_cases lp with h | h | h <;> rw [h]
  · exact urban_areas_wf
  · exact suburban_areas_wf
  · exact rural_areas_wf

theorem areasFor_ne_nil (lp : String) : areasFor lp ≠ [] := by
  rcases areasFor_cases lp with h | h | h <;> rw [h] <;> decide

theorem choiceIdx_lt (u : ℚ) (n : ℕ) (hn : n ≠ 0) : choiceIdx u n < n :=
  lt_of_le_of_lt (min_le_left _ _) (Nat.sub_lt (Nat.pos_of_ne_zero hn)
    Nat.one_pos)

theorem getD_mem_of_lt {α : Type} [Inhabited α] (l : List α) (i : ℕ)
    (h : i < l.length) : l.getD i default ∈ l := by
  rw [List.getD_eq_getElem l default h]
  exact List.getElem_mem h

theorem uniform_mem {lo hi u : ℚ} (hlh : lo ≤ hi) (h0 : 0 ≤ u)
    (h1 : u < 1) : lo ≤ uniform lo hi u ∧ uniform lo hi u ≤ hi := by
  unfold uniform
  constructor <;> nlinarith

/-- The membership test of C5 as a Boolean predicate. -/
def nodeInArea (area : GeoArea) (node : EnergyNode) : Bool :=
  decide (area.lat_lo ≤ node.latitude) &&
  decide (node.latitude ≤ area.lat_hi) &&
  decide (area.lon_lo ≤ node.longitude) &&
  decide (node.longitude ≤ area.lon_hi)

theorem mkNode_in_area (dist : List (String × ℚ))
    (areas : List GeoArea) (now : ℤ) (ctr : ℕ) (s : Draws)
    (hne : areas ≠ []) (hwf : ∀ a ∈ areas, areaWF a)
    (hv : ValidStream s) :
    (areas.any (fun area => nodeInArea area (mkNode dist areas now ctr s)))
      = true := by
  rw [List.any_eq_true]
  have hlen : areas.length ≠ 0 := by
    simpa [List.length_eq_zero] using hne
  have hidx := choiceIdx_lt (s 1) areas.length hlen
  refine ⟨areas.getD (choiceIdx (s 1) areas.length) default,
    getD_mem_of_lt _ _ hidx, ?_⟩
  set area := areas.getD (choiceIdx (s 1) areas.length) default with harea
  obtain ⟨wf1, wf2, wf3, wf4, wf5, wf6⟩ :=
    hwf area (getD_mem_of_lt _ _ hidx)
  obtain ⟨hlat1, hlat2⟩ := uniform_mem (u := s 2) wf1 (hv 2).1 (hv 2).2
  obtain ⟨hlon1, hlon2⟩ := uniform_mem (u := s 3) wf2 (hv 3).1 (hv 3).2
  simp only [nodeInArea, mkNode, Bool.and_eq_true, decide_eq_true_eq]
  by_cases hcomm : weightedChoice dist (s 0) = "commercial" <;>
    simp only [hcomm, if_true, if_false, reduceIte] <;>
    refine ⟨⟨⟨?_, ?_⟩, ?_⟩, ?_⟩ <;> nlinarith

theorem validStream_drop (s : Draws) (n : ℕ) (hv : ValidStream s) :
    ValidStream (s.drop n) := fun i => hv (n + i)

/-- The node loop keeps every generated node inside some area of the
selected catalog. -/
theorem genNodesLoop_in_area (dist : List (String × ℚ))
    (areas : List GeoArea) (now : ℤ) (hne : areas ≠ [])
    (hwf : ∀ a ∈ areas, areaWF a) :
    ∀ (count ctr : ℕ) (s : Draws), ValidStream s →
    ((genNodesLoop dist areas now count ctr s).all
      (fun node => areas.any (fun area => nodeInArea area node)))
      = true := by
  intro count
  induction count with
  | zero => intro ctr s _; rfl
  | succ n ih =>
    intro ctr s hv
    simp only [genNodesLoop, List.all_cons, Bool.and_eq_true]
    exact ⟨mkNode_in_area dist _ now ctr s hne hwf hv,
      ih (ctr + 1) (s.drop 7) (validStream_drop s 7 hv)⟩

/-- C5: every node returned by `generate_nodes` — commercial nodes with
their 70/30 blend toward the area center included — has latitude and
longitude within the bounding box of one of the chosen density class's
areas. -/
theorem c5_nodes_within_bounds (count : ℕ) (lp : String)
    (dist : List (String × ℚ)) (now : ℤ) (s : Draws) (ctr : ℕ)
    (hv : ValidStream s) :
    ((generate_nodes count lp dist now s ctr).all
      (fun node => (areasFor lp).any (fun area => nodeInArea area node)))
      = true :=
  genNodesLoop_in_area dist (areasFor lp) now (areasFor_ne_nil lp)
    (areasFor_wf lp) count ctr s hv

/-- Witness for C5: the hypothesis holds for the constant zero stream,
and the theorem applies at a concrete run. -/
theorem c5_witness :
    ((generate_nodes 3 "suburban" default_distribution 0 zeroDraws 0).all
      (fun node => (areasFor "suburban").any
        (fun area => nodeInArea area node))) = true :=
  c5_nodes_within_bounds 3 "suburban" default_distribution 0 zeroDraws 0
    (fun _ => ⟨le_refl 0, zero_lt_one⟩)

/-! ## C3: the deterministic per-hour formula for a residential node -/

/-- The formula of C3, written from the claim: peak-hour base for hours
18 to 21 (the start is at midnight, so hour index equals hour of day),
weekend multiplier on weekends, seasonal sinusoid of the month, the
node's individual multiplier, multiplicative noise, then the 0.1 clamp
and 3-decimal rounding. -/
def c3Formula (pat : UsagePattern) (mult : ℚ) (sinQ : ℕ → ℚ)
    (start : ℤ) (h : ℕ) (noiseDraw : ℚ) : ℚ :=
  let base := if 18 ≤ h ∧ h ≤ 21 then pat.peak_kwh else pat.baseline_kwh
  let wk := if 5 ≤ weekdayOfTs (start + 3600 * h)
    then pat.weekend_multiplier else 1
  let seasonal := 1 + pat.seasonal_variation *
    sinQ (monthOfTs (start + 3600 * h))
  round3 (max (1/10)
    (base * wk * seasonal * mult * (1 + pat.noise_level * noiseDraw)))

theorem hourPoint_p0_consumed (node : EnergyNode) (pat : UsagePattern)
    (sinQ : ℕ → ℚ) (t : ℤ) (dctr : ℕ) (s : Draws) (h1 : 0 ≤ s 1) :
    (hourPoint node pat sinQ t 0 dctr s).2 = 2 := by
  have hna : ¬ (s 1 < 0) := not_lt.2 h1
  unfold hourPoint
  simp [hna]

theorem hourPoint_p0_anomaly (node : EnergyNode) (pat : UsagePattern)
    (sinQ : ℕ → ℚ) (t : ℤ) (dctr : ℕ) (s : Draws) (h1 : 0 ≤ s 1) :
    (hourPoint node pat sinQ t 0 dctr s).1.anomaly = false := by
  have hna : ¬ (s 1 < 0) := not_lt.2 h1
  unfold hourPoint
  simp [hna]

theorem hourPoint_p0_kwh (node : EnergyNode) (pat : UsagePattern)
    (sinQ : ℕ → ℚ) (t : ℤ) (dctr : ℕ) (s : Draws) (h1 : 0 ≤ s 1) :
    (hourPoint node pat sinQ t 0 dctr s).1.kwh =
    round3 (max (1/10)
      ((if hourOfTs t ∈ pat.peak_hours then pat.peak_kwh
          else pat.baseline_kwh) *
        (if 5 ≤ weekdayOfTs t then pat.weekend_multiplier else 1) *
        (1 + pat.seasonal_variation * sinQ (monthOfTs t)) *
        node.multiplier * (1 + pat.noise_level * s 0))) := by
  have hna : ¬ (s 1 < 0) := not_lt.2 h1
  unfold hourPoint
  simp only [hna, reduceIte]
  congr 2
  by_cases hw : 5 ≤ weekdayOfTs t
  · simp only [hw, if_true, reduceIte]
  · simp only [hw, if_false, reduceIte]
    ring_nf

theorem genNodeHours_length (node : EnergyNode) (pat : UsagePattern)
    (sinQ : ℕ → ℚ) (start : ℤ) (p : ℚ) :
    ∀ (n h dctr : ℕ) (s : Draws),
    (genNodeHours node pat sinQ start p n h dctr s).1.length = n := by
  intro n
  induction n with
  | zero => intro h dctr s; rfl
  | succ m ih =>
    intro h dctr s
    simp only [genNodeHours, List.length_cons, ih]

theorem genNodeHours_p0_get (node : EnergyNode) (pat : UsagePattern)
    (sinQ : ℕ → ℚ) (start : ℤ) :
    ∀ (n h0 dctr : ℕ) (s : Draws), (∀ i, 0 ≤ s (2 * i + 1)) →
    ∀ k, k < n →
    (genNodeHours node pat sinQ start 0 n h0 dctr s).1.get? k =
      some (hourPoint node pat sinQ (start + 3600 * (h0 + k)) 0
        (dctr + k) (s.drop (2 * k))).1 := by
  intro n
  induction n with
  | zero => intro h0 dctr s _ k hk; omega
  | succ m ih =>
    intro h0 dctr s hnn k hk
    have hcons : (hourPoint node pat sinQ (start + 3600 * h0) 0 dctr s).2
        = 2 := hourPoint_p0_consumed node pat sinQ _ dctr s (hnn 0)
    have hnnd : ∀ i, 0 ≤ (s.drop 2) (2 * i + 1) := by
      intro i
      have h := hnn (i + 1)
      rw [show 2 * (i + 1) + 1 = 2 + (2 * i + 1) from by omega] at h
      exact h
    rcases k with _ | k'
    · have hdrop : s.drop (2 * 0) = s := by
        funext i
        simp [Draws.drop]
      simp only [genNodeHours, List.get?, hdrop, Nat.add_zero,
        Nat.cast_zero, add_zero]
    · simp only [genNodeHours, List.get?, hcons]
      have hih := ih (h0 + 1) (dctr + 1) (s.drop 2)
        hnnd k' (by omega)
      rw [hih]
      have h2 : dctr + 1 + k' = dctr + (k' + 1) := by omega
      have h3 : (s.drop 2).drop (2 * k') = s.drop (2 * (k' + 1)) := by
        funext i
        simp only [Draws.drop]
        congr 1
        omega
      rw [h2, h3]
      congr 2
      push_cast
      ring_nf

theorem hourOf_midnight_start (start : ℤ) (h : ℕ)
    (hmid : start % 86400 = 0) (hlt : h < 24) :
    hourOfTs (start + 3600 * h) = h := by
  unfold hourOfTs
  omega

/-- C3: for one active residential node, 24 hours, zero anomaly
probability and a start at midnight, `generate_time_series` produces
exactly 24 points, each with `anomaly = false` and with
`kwh = round3(max(0.1, base * weekend * seasonal * multiplier *
(1 + noise)))`, the base being the peak load for hours 18 to 21 and the
baseline otherwise.  The hypothesis constrains only the odd-indexed
draws — the `random.random()` anomaly checks, which lie in `[0, 1)` —
while the even-indexed standard-normal noise draws stay arbitrary. -/
theorem c3_residential_day_formula (sinQ : ℕ → ℚ) (node : EnergyNode)
    (start : ℤ) (dctr : ℕ) (s : Draws) (hact : node.active = true)
    (hpat : node.pattern_type = "residential")
    (hnn : ∀ i, 0 ≤ s (2 * i + 1)) (hmid : start % 86400 = 0) :
    (generate_time_series sinQ [node] start 24 0 dctr s).1.length = 24 ∧
    ∀ h : ℕ, h < 24 →
      ((generate_time_series sinQ [node] start 24 0 dctr s).1.get? h).map
          EnergyDataPoint.anomaly = some false ∧
      ((generate_time_series sinQ [node] start 24 0 dctr s).1.get? h).map
          EnergyDataPoint.kwh =
        some (c3Formula (patternFor "residential") node.multiplier sinQ
          start h (s (2 * h))) := by
  have hout : (generate_time_series sinQ [node] start 24 0 dctr s).1 =
      (genNodeHours node (patternFor "residential") sinQ start 0
        24 0 dctr s).1 := by
    simp only [generate_time_series, hact, if_true, hpat]
    rcases hg : genNodeHours node (patternFor "residential") sinQ start 0
      24 0 dctr s with ⟨pts, d', s'⟩
    simp
  constructor
  · rw [hout]
    exact genNodeHours_length node _ sinQ start 0 24 0 dctr s
  · intro h hh
    have hnn2 : (0:ℚ) ≤ (s.drop (2 * h)) 1 := hnn h
    have hs0 : (s.drop (2 * h)) 0 = s (2 * h) := by
      simp [Draws.drop]
    rw [hout, genNodeHours_p0_get node _ sinQ start 24 0 dctr s hnn h hh]
    simp only [Nat.cast_zero, zero_add, Nat.zero_add]
    have hhour : hourOfTs (start + 3600 * (h:ℤ)) = h :=
      hourOf_midnight_start start h hmid hh
    constructor
    · simp only [Option.map_some', Option.some.injEq]
      exact hourPoint_p0_anomaly node _ sinQ _ (dctr + h)
        (s.drop (2 * h)) hnn2
    · simp only [Option.map_some', Option.some.injEq]
      rw [hourPoint_p0_kwh node _ sinQ _ (dctr + h) (s.drop (2 * h)) hnn2]
      unfold c3Formula
      rw [hs0, hhour]
      have hmem : (h ∈ (patternFor "residential").peak_hours) ↔
          (18 ≤ h ∧ h ≤ 21) := by
        show h ∈ [18, 19, 20, 21] ↔ _
        simp only [List.mem_cons, List.mem_singleton, List.not_mem_nil,
          or_false]
        omega
      rw [if_congr hmem rfl rfl]

/-- A draw stream whose even-indexed (noise) draws are negative while
the odd-indexed (anomaly-check) draws are 0. -/
def negNoiseDraws : Draws := fun i => if i % 2 = 0 then -(1/2) else 0

/-- A concrete active residential node for witnesses. -/
def nodeRes : EnergyNode :=
  { node_id := "node_000000", location := (407128/10000, -740060/10000),
    latitude := 407128/10000, longitude := -740060/10000,
    pattern_type := "residential", active := true, registered_at := 0,
    multiplier := 1, density := "very_high" }

/-- Witness for C3 at a concrete node and start time, on a stream whose
noise draws are all negative. -/
theorem c3_witness :
    (generate_time_series (fun _ => 0) [nodeRes] 0 24 0 0
        negNoiseDraws).1.length = 24 ∧
    ((generate_time_series (fun _ => 0) [nodeRes] 0 24 0 0
        negNoiseDraws).1.get? 19).map EnergyDataPoint.anomaly
      = some false ∧
    ((generate_time_series (fun _ => 0) [nodeRes] 0 24 0 0
        negNoiseDraws).1.get? 19).map EnergyDataPoint.kwh =
      some (c3Formula (patternFor "residential") nodeRes.multiplier
        (fun _ => 0) 0 19 (negNoiseDraws (2 * 19))) := by
  have hodd : ∀ i, 0 ≤ negNoiseDraws (2 * i + 1) := by
    intro i
    have hm : (2 * i + 1) % 2 = 1 := by omega
    simp [negNoiseDraws, hm]
  have h := c3_residential_day_formula (fun _ => 0) nodeRes 0 0
    negNoiseDraws rfl rfl hodd (by decide)
  exact ⟨h.1, (h.2 19 (by norm_num)).1, (h.2 19 (by norm_num)).2⟩

/-! ## C2 (corrected): which rows does the merge skip?

`_safe_extract_timestamp` returns the fallback for an absent column or
an unparseable string, but returns `None` for a present missing (`NaN`)
timestamp value — and `merge_with_kaggle_data` then skips the row, the
same as for an energy failure.  So timestamp trouble can skip a row,
contrary to the claim. -/

/-- The timestamp cell is present but missing (`pd.isna`): the one
timestamp condition that makes `_safe_extract_timestamp` return `None`. -/
def tsMissing (cols : List String) (row : List Cell) (tcol : String) :
    Bool :=
  match rowGet cols row tcol with
  | some Cell.na => true
  | _ => false

theorem safe_extract_timestamp_isSome (parseDT : String → Option ℤ)
    (cols : List String) (row : List Cell) (tcol : String) (now : ℤ)
    (s : Draws) :
    ((safe_extract_timestamp parseDT cols row tcol now s).1).isSome =
      !(tsMissing cols row tcol) := by
  unfold safe_extract_timestamp tsMissing
  rcases hg : rowGet cols row tcol with _ | c
  · simp [hg]
  · rcases c with q | t | _
    · simp [hg]
    · rcases hp : parseDT t with _ | ts <;> simp [hg, hp]
    · simp [hg]

/-- A one-row external table whose energy value parses but whose
timestamp value is present and missing (`NaN`). -/
def tblNaTs : Table :=
  { columns := colsCE, rows := [[Cell.num 10, Cell.na]] }

/-- C2 counterexample: on a sampled row whose energy value parses but
whose timestamp value is `NaN`, `merge_with_kaggle_data` emits nothing
— the row is skipped rather than recovered with a fallback timestamp. -/
theorem c2_counterexample :
    merge_with_kaggle_data noFloat noDT (some tblNaTs) 1000 0 zeroDraws 0
      = [] ∧
    safe_extract_numeric noFloat colsCE [Cell.num 10, Cell.na] "energy"
      = some 10 := by
  constructor
  · have hd1 : detectColumn colsCE energy_candidates = some "energy" := by
      decide
    have hd2 : detectColumn colsCE timestamp_candidates
        = some "timestamp" := by decide
    have hd3 : detectColumn colsCE meter_candidates = Option.none := by
      decide
    have hsamp : sampleRows 1 [[Cell.num 10, Cell.na]] zeroDraws
        = [[Cell.num 10, Cell.na]] := by
      norm_num [sampleRows, pickAt, choiceIdx, qfloor, zeroDraws]
    have hrows : merge_rows noFloat noDT colsCE "energy" "timestamp"
        "synthetic" 0 [[Cell.num 10, Cell.na]] 0 (zeroDraws.drop 1)
        = .ok ([], 0) := rfl
    have hcols : tblNaTs.columns = colsCE := rfl
    have hrows' : tblNaTs.rows = [[Cell.num 10, Cell.na]] := rfl
    simp only [merge_with_kaggle_data, hcols, hrows', hd1, hd2, hd3]
    norm_num [hsamp, hrows]
  · rfl

/-- C2 amended: in `merge_with_kaggle_data`, a row is emitted exactly
when its energy value parses and its timestamp cell is not a
present-but-missing (`NaN`) value: an unparseable timestamp string or
an absent timestamp column is recovered with the fallback timestamp
`now` minus a uniform random offset within the past year, but a `NaN`
timestamp returns `None` and skips the row, the same as an energy
failure. -/
theorem c2_timestamp_skip_rule (parseFloat : String → Option ℚ)
    (parseDT : String → Option ℤ) (cols : List String)
    (ecol tcol mcol : String) (now : ℤ) :
    (∀ (rows : List (List Cell)) (dctr : ℕ) (s : Draws)
       (pts : List EnergyDataPoint) (dctr' : ℕ),
      merge_rows parseFloat parseDT cols ecol tcol mcol now rows dctr s =
        .ok (pts, dctr') →
      pts.length = rows.countP (fun row =>
        (safe_extract_numeric parseFloat cols row ecol).isSome &&
        !(tsMissing cols row tcol))) ∧
    (∀ (row : List Cell) (t : String) (s : Draws),
      rowGet cols row tcol = some (Cell.str t) → parseDT t = none →
      (safe_extract_timestamp parseDT cols row tcol now s).1 =
        some (now - (randint (s 0) (86400 * 365) : ℤ))) := by
  constructor
  · intro rows
    induction rows with
    | nil =>
      intro dctr s pts dctr' h
      obtain ⟨rfl, rfl⟩ : pts = [] ∧ dctr' = dctr := by
        simpa [merge_rows] using h.symm
      rfl
    | cons row rest ih =>
      intro dctr s pts dctr' h
      simp only [merge_rows] at h
      rw [List.countP_cons]
      rcases hk : safe_extract_numeric parseFloat cols row ecol
          with _ | kwh <;>
        rcases ht : (safe_extract_timestamp parseDT cols row tcol now
          s).1 with _ | ts <;>
        simp only [hk, ht] at h
      · have hmiss : (tsMissing cols row tcol) = true := by
          have := safe_extract_timestamp_isSome parseDT cols row tcol now s
          rw [ht] at this
          simpa using this.symm
        simp only [hk, Option.isSome_none, Bool.false_and, if_false,
          reduceIte, Nat.add_zero]
        exact ih _ _ _ _ h
      · simp only [hk, Option.isSome_none, Bool.false_and, if_false,
          reduceIte, Nat.add_zero]
        exact ih _ _ _ _ h
      · have hmiss : (tsMissing cols row tcol) = true := by
          have := safe_extract_timestamp_isSome parseDT cols row tcol now s
          rw [ht] at this
          simpa using this.symm
        simp only [hk, hmiss, Option.isSome_some, Bool.not_true,
          Bool.and_false, if_false, reduceIte, Nat.add_zero]
        exact ih _ _ _ _ h
      · have hmiss : (tsMissing cols row tcol) = false := by
          have := safe_extract_timestamp_isSome parseDT cols row tcol now s
          rw [ht] at this
          simpa using this.symm
        by_cases hr : ts < tsMin ∨ tsMax < ts
        · simp only [hr, if_true, reduceIte] at h
          cases h
        · simp only [hr, if_false, reduceIte] at h
          rcases hrec : merge_rows parseFloat parseDT cols ecol tcol mcol
              now rest (dctr + 1)
              ((s.drop ((safe_extract_timestamp parseDT cols row tcol now
                s).2 + (safe_extract_string cols row mcol
                  (s.drop (safe_extract_timestamp parseDT cols row tcol
                    now s).2)).2)).drop 4) with e | pr
          · rw [hrec] at h; cases h
          · rw [hrec] at h
            obtain ⟨pts', dctr''⟩ := pr
            cases h
            simp only [hk, hmiss, Option.isSome_some, Bool.not_false,
              Bool.and_true, if_true, reduceIte, List.length_cons]
            rw [ih _ _ _ _ hrec]
  · intro row t s hrow hparse
    unfold safe_extract_timestamp
    simp [hrow, hparse]

/-- Witness for C2 amended, at a one-row table whose energy value is
missing: the row loop succeeds and emits nothing. -/
theorem c2_witness :
    ([] : List EnergyDataPoint).length =
      [[Cell.na, Cell.na]].countP (fun row =>
        (safe_extract_numeric noFloat colsCE row "energy").isSome &&
        !(tsMissing colsCE row "timestamp")) :=
  (c2_timestamp_skip_rule noFloat noDT colsCE "energy" "timestamp"
    "synthetic" 0).1 [[Cell.na, Cell.na]] 0 zeroDraws [] 0 rfl

/-! ## C6 (corrected): thresholds classify the pre-rounding value

`merge_with_kaggle_data` classifies `kwh_varied` and then emits
`round(kwh_varied, 3)`, so at a class boundary the emitted kwh can land
on the threshold while the pattern belongs to the class below. -/

/-- The threshold rule of C6, read on the emitted kwh. -/
def thresholdConsistent (pt : EnergyDataPoint) : Bool :=
  if pt.kwh < 5 then pt.pattern_type == "residential"
  else if pt.kwh < 20 then pt.pattern_type == "commercial"
  else if pt.kwh < 50 then pt.pattern_type == "industrial"
  else pt.pattern_type == "datacenter"

/-- A one-row external table whose energy value, 4.9999, sits just
below the residential/commercial threshold. -/
def tblBoundary : Table :=
  { columns := colsCE,
    rows := [[Cell.num (49999/10000), Cell.num 2000000000]] }

/-- The single data point produced by merging `tblBoundary` on the
constant one-half stream: the variation factor is exactly 1, the value
4.9999 is classified residential, and the emitted kwh rounds up to 5. -/
def ptBoundary : EnergyDataPoint :=
  { data_id := "kaggle_00000000",
    node_id := "kaggle_uuid_500000000",
    kwh := 5,
    location := generate_realistic_location ((halfDraws.drop 1).drop 1),
    timestamp := 2000000000,
    hour := hourOfTs 2000000000,
    day_of_week := weekdayOfTs 2000000000,
    month := monthOfTs 2000000000,
    pattern_type := "residential",
    anomaly := false }

/-- Evaluation of the merge of `tblBoundary` on the one-half stream. -/
theorem merge_tblBoundary_eq :
    merge_with_kaggle_data noFloat noDT (some tblBoundary) 1000 0
      halfDraws 0 = [ptBoundary] := by
  have hd1 : detectColumn colsCE energy_candidates = some "energy" := by
    decide
  have hd2 : detectColumn colsCE timestamp_candidates = some "timestamp" := by
    decide
  have hd3 : detectColumn colsCE meter_candidates = Option.none := by decide
  have hsamp : sampleRows 1 [[Cell.num (49999/10000), Cell.num 2000000000]]
      halfDraws = [[Cell.num (49999/10000), Cell.num 2000000000]] := by
    norm_num [sampleRows, pickAt, choiceIdx, qfloor, halfDraws]
  have hk : safe_extract_numeric noFloat colsCE
      [Cell.num (49999/10000), Cell.num 2000000000] "energy"
      = some (49999/10000) := rfl
  have ht : safe_extract_timestamp noDT colsCE
      [Cell.num (49999/10000), Cell.num 2000000000] "timestamp" 0
      (halfDraws.drop 1) = (some 2000000000, 0) := by
    have h1 : truncQ 2000000000 = 2000000000 := by norm_num [truncQ]
    have h2 : rowGet colsCE [Cell.num (49999/10000), Cell.num 2000000000]
        "timestamp" = some (Cell.num 2000000000) := rfl
    norm_num [safe_extract_timestamp, h1, h2]
  have hm : safe_extract_string colsCE
      [Cell.num (49999/10000), Cell.num 2000000000] "synthetic"
      ((halfDraws.drop 1).drop 0) = ("uuid_500000000", 1) := by
    have h2 : rowGet colsCE [Cell.num (49999/10000), Cell.num 2000000000]
        "synthetic" = Option.none := rfl
    have h3 : qfloor ((halfDraws.drop 1).drop 0 0 * 1000000000)
        = 500000000 := by
      norm_num [qfloor, halfDraws, Draws.drop]
    norm_num [safe_extract_string, h2, h3]
    decide
  have hrows : merge_rows noFloat noDT colsCE "energy" "timestamp"
      "synthetic" 0 [[Cell.num (49999/10000), Cell.num 2000000000]] 0
      (halfDraws.drop 1) = .ok ([ptBoundary], 1) := by
    norm_num [merge_rows, hk, ht, hm, tsMin, tsMax, uniform, classify_kwh,
      round3, qfloor, halfDraws, Draws.drop, pad0, ptBoundary]
    decide
  have hcols : tblBoundary.columns = colsCE := rfl
  have hrows' : tblBoundary.rows
      = [[Cell.num (49999/10000), Cell.num 2000000000]] := rfl
  simp only [merge_with_kaggle_data, hcols, hrows', hd1, hd2, hd3]
  norm_num [hsamp, hrows]
  decide

/-- C6 counterexample: the merged point from `tblBoundary` has emitted
`kwh = 5` with `pattern_type = "residential"`, violating the rule that
`5 ≤ kwh < 20` implies commercial — threshold consistency fails on the
emitted (rounded) kwh. -/
theorem c6_counterexample :
    ((merge_with_kaggle_data noFloat noDT (some tblBoundary) 1000 0
        halfDraws 0).all thresholdConsistent) = false := by
  rw [merge_tblBoundary_eq]
  norm_num [thresholdConsistent, ptBoundary]
  decide

theorem merge_rows_classified (parseFloat : String → Option ℚ)
    (parseDT : String → Option ℤ) (cols : List String)
    (ecol tcol mcol : String) (now : ℤ) :
    ∀ (rows : List (List Cell)) (dctr : ℕ) (s : Draws)
      (pts : List EnergyDataPoint) (dctr' : ℕ),
    merge_rows parseFloat parseDT cols ecol tcol mcol now rows dctr s =
      .ok (pts, dctr') →
    ∀ pt ∈ pts, ∃ kv : ℚ,
      pt.kwh = round3 kv ∧ pt.pattern_type = classify_kwh kv := by
  intro rows
  induction rows with
  | nil =>
    intro dctr s pts dctr' h
    obtain ⟨rfl, rfl⟩ : pts = [] ∧ dctr' = dctr := by
      simpa [merge_rows] using h.symm
    intro pt hpt
    cases hpt
  | cons row rest ih =>
    intro dctr s pts dctr' h
    simp only [merge_rows] at h
    rcases hk : safe_extract_numeric parseFloat cols row ecol
        with _ | kwh <;>
      rcases ht : (safe_extract_timestamp parseDT cols row tcol now s).1
        with _ | ts <;>
      simp only [hk, ht] at h
    · exact ih _ _ _ _ h
    · exact ih _ _ _ _ h
    · exact ih _ _ _ _ h
    · by_cases hr : ts < tsMin ∨ tsMax < ts
      · simp only [hr, if_true, reduceIte] at h
        cases h
      · simp only [hr, if_false, reduceIte] at h
        rcases hrec : merge_rows parseFloat parseDT cols ecol tcol mcol
            now rest (dctr + 1)
            ((s.drop ((safe_extract_timestamp parseDT cols row tcol now
              s).2 + (safe_extract_string cols row mcol
                (s.drop (safe_extract_timestamp parseDT cols row tcol
                  now s).2)).2)).drop 4) with e | pr
        · rw [hrec] at h; cases h
        · rw [hrec] at h
          obtain ⟨pts', dctr''⟩ := pr
          cases h
          intro pt hpt
          rcases hpt with _ | ⟨_, hpt'⟩
          · exact ⟨kwh * uniform (4/5) (6/5)
              ((s.drop ((safe_extract_timestamp parseDT cols row tcol now
                s).2 + (safe_extract_string cols row mcol
                  (s.drop (safe_extract_timestamp parseDT cols row tcol
                    now s).2)).2)) 3), rfl, rfl⟩
          · exact ih _ _ _ _ hrec pt hpt'

/-- C6 amended: for every data point emitted by
`merge_with_kaggle_data` there is a pre-rounding value `kv` (the source
energy value times the variation factor) such that the emitted kwh is
`round(kv, 3)` and the pattern type is the fixed-threshold class of
`kv`; the thresholds are applied before rounding, so the emitted kwh
may land exactly on a class boundary (see the counterexample). -/
theorem c6_classification_preround (parseFloat : String → Option ℚ)
    (parseDT : String → Option ℤ) (table? : Option Table)
    (sample_size : ℕ) (now : ℤ) (s : Draws) (dctr : ℕ) :
    ∀ pt ∈ merge_with_kaggle_data parseFloat parseDT table? sample_size
      now s dctr,
    ∃ kv : ℚ, pt.kwh = round3 kv ∧ pt.pattern_type = classify_kwh kv := by
  rcases table? with _ | df
  · intro pt hpt
    cases hpt
  · simp only [merge_with_kaggle_data]
    by_cases hc : df.columns.length < 2
    · simp only [hc, if_true, reduceIte]
      intro pt hpt
      cases hpt
    · simp only [hc, if_false, reduceIte]
      rcases hmr : merge_rows parseFloat parseDT df.columns _ _ _ now
          (sampleRows (min sample_size df.rows.length) df.rows s) dctr
          (s.drop (min sample_size df.rows.length)) with e | pr
      · intro pt hpt
        cases hpt
      · obtain ⟨pts, dctr'⟩ := pr
        exact merge_rows_classified _ _ _ _ _ _ _ _ _ _ _ _ hmr

/-- Witness for C6 amended at the concrete merged point of
`tblKwhZero`. -/
theorem c6_witness :
    ∃ kv : ℚ, ptKwhZero.kwh = round3 kv ∧
      ptKwhZero.pattern_type = classify_kwh kv :=
  c6_classification_preround noFloat noDT (some tblKwhZero) 1000 0
    zeroDraws 0 ptKwhZero
    (by rw [merge_tblKwhZero_eq]; exact List.mem_singleton_self _)
